import Mathlib

/-!
A verification development for the `multi_output_viewer` rendering/state
engine.  The Rust sources `src/state.rs` and `src/vte_actions.rs` are embedded
shallowly: bytes are `Nat` (values < 256), machine integers are `Nat` with an
explicit `% 2 ^ w` where wrapping matters, `saturating_sub` is truncated `Nat`
subtraction, and fallible operations return the untouched state together with
an optional error message (mirroring `&mut self` methods returning
`Result`).  Writes to the output sink are modelled as a list of
`OutputEvent`s produced by `render`.
-/

/-- The semantic actions emitted by the control-sequence interpreter
(`VteAction` in `src/vte_actions.rs`).  `Text` carries the printable byte. -/
inductive VteAction where
  | Text (c : Nat)
  | Tab
  | LineFeed
  | CarriageReturn
  | CursorUp (n : Nat)
  | CursorDown (n : Nat)
  | CursorForward (n : Nat)
  | CursorBackward (n : Nat)
  | CursorNextLine (n : Nat)
  | CursorPreviousLine (n : Nat)
deriving DecidableEq, Repr

/-- Embeds `Performer::print` from `src/vte_actions.rs`: every printable character
becomes a `Text` action. -/
def performer_print (c : Nat) : VteAction := .Text c

/-- Embeds `Performer::execute` from `src/vte_actions.rs`: only bytes 9 (tab),
10 (line feed) and 13 (carriage return) produce an action. -/
def performer_execute (byte : Nat) : Option VteAction :=
  if byte = 9 then some .Tab
  else if byte = 10 then some .LineFeed
  else if byte = 13 then some .CarriageReturn
  else none

/-- Embeds `ParamsCanonicalize::canonicalize_1` from `src/vte_actions.rs`: the first
subparameter of the first parameter group, with `0` or absence replaced by the
default. -/
def canonicalize_1 (params : List (List Nat)) (default : Nat) : Nat :=
  match params.head? with
  | none => default
  | some g =>
    match g.head? with
    | none => default
    | some x => if x = 0 then default else x

/-- Embeds `Performer::csi_dispatch` from `src/vte_actions.rs`: an action is produced
only when there are no intermediate bytes and the final byte is one of
`A`..`F` (65..70). -/
def performer_csi_dispatch (params : List (List Nat)) (intermediates : List Nat)
    (c : Nat) : Option VteAction :=
  if intermediates = [] then
    if c = 65 then some (.CursorUp (canonicalize_1 params 1))
    else if c = 66 then some (.CursorDown (canonicalize_1 params 1))
    else if c = 67 then some (.CursorForward (canonicalize_1 params 1))
    else if c = 68 then some (.CursorBackward (canonicalize_1 params 1))
    else if c = 69 then some (.CursorNextLine (canonicalize_1 params 1))
    else if c = 70 then some (.CursorPreviousLine (canonicalize_1 params 1))
    else none
  else none

/-- Modelled from the spec: the state of the `vte` crate's ANSI parser (an
external dependency wrapped by `VteActionParser`).  The spec requires a parser
that recognises printable characters, C0 controls and CSI sequences, keeps
in-progress escape state across calls, and consumes intermediate bytes,
other finals and OSC/DCS content without producing actions. -/
inductive VteParserState where
  | ground
  | escape
  | escapeIntermediate
  | csiParam (intermediates : List Nat) (ps : List Nat) (cur : Nat) (sub : Bool)
  | csiIgnore
  | oscString
  | oscEscape
  | dcsBody
  | dcsEscape
deriving DecidableEq, Repr

/-- Parameter accumulation in `vte` saturates at `u16::MAX`. -/
def sat_param (cur d : Nat) : Nat := min (min (cur * 10) 65535 + d) 65535

/-- Actions produced by a C0 control byte (via `Performer::execute`). -/
def execute_actions (b : Nat) : List VteAction :=
  match performer_execute b with
  | some a => [a]
  | none => []

/-- Modelled from the spec: one byte of the `vte` parser state machine,
dispatching to the `Performer` callbacks embedded above. -/
def vte_step (s : VteParserState) (b : Nat) : VteParserState × List VteAction :=
  match s with
  | .ground =>
    if b = 27 then (.escape, [])
    else if 32 ≤ b ∧ b ≤ 126 then (.ground, [performer_print b])
    else if b < 32 then (.ground, execute_actions b)
    else (.ground, [])
  | .escape =>
    if b = 91 then (.csiParam [] [] 0 false, [])
    else if b = 93 then (.oscString, [])
    else if b = 80 then (.dcsBody, [])
    else if 32 ≤ b ∧ b ≤ 47 then (.escapeIntermediate, [])
    else if b = 27 then (.escape, [])
    else if b < 32 then (.escape, execute_actions b)
    else (.ground, [])
  | .escapeIntermediate =>
    if 32 ≤ b ∧ b ≤ 47 then (.escapeIntermediate, [])
    else if b = 27 then (.escape, [])
    else if b < 32 then (.escapeIntermediate, execute_actions b)
    else (.ground, [])
  | .csiParam inter ps cur sub =>
    if 48 ≤ b ∧ b ≤ 57 then
      (.csiParam inter ps (if sub then cur else sat_param cur (b - 48)) sub, [])
    else if b = 59 then (.csiParam inter (ps ++ [cur]) 0 false, [])
    else if b = 58 then (.csiParam inter ps cur true, [])
    else if 60 ≤ b ∧ b ≤ 63 then (.csiParam (inter ++ [b]) ps cur sub, [])
    else if 32 ≤ b ∧ b ≤ 47 then (.csiParam (inter ++ [b]) ps cur sub, [])
    else if b = 27 then (.escape, [])
    else if b < 32 then (.csiParam inter ps cur sub, execute_actions b)
    else if 64 ≤ b ∧ b ≤ 126 then
      (.ground,
        match performer_csi_dispatch ((ps ++ [cur]).map (fun p => [p])) inter b with
        | some a => [a]
        | none => [])
    else (.csiParam inter ps cur sub, [])
  | .csiIgnore =>
    if b = 27 then (.escape, [])
    else if 64 ≤ b ∧ b ≤ 126 then (.ground, [])
    else if b < 32 then (.csiIgnore, execute_actions b)
    else (.csiIgnore, [])
  | .oscString =>
    if b = 7 then (.ground, [])
    else if b = 27 then (.oscEscape, [])
    else (.oscString, [])
  | .oscEscape =>
    if b = 92 then (.ground, []) else (.ground, [])
  | .dcsBody =>
    if b = 27 then (.dcsEscape, []) else (.dcsBody, [])
  | .dcsEscape =>
    if b = 92 then (.ground, []) else (.dcsBody, [])

/-- Embeds `VteActionParser::parse_bytes`: feed a byte list through the parser,
collecting emitted actions in order and returning the updated parser state. -/
def parse_bytes (s : VteParserState) (bytes : List Nat) :
    VteParserState × List VteAction :=
  bytes.foldl
    (fun acc b =>
      let r := vte_step acc.1 b
      (r.1, acc.2 ++ r.2))
    (s, [])

/-- The per-action cursor-offset update performed inside `State::render`
(`src/state.rs` lines 94-113).  The components are `u16`: additions wrap at
`2 ^ 16` and `saturating_sub` is truncated `Nat` subtraction. -/
def fold_cursor_action (xy : Nat × Nat) (a : VteAction) : Nat × Nat :=
  match a with
  | .Text _ => ((xy.1 + 1) % 65536, xy.2)
  | .Tab => ((xy.1 + (8 - xy.1 % 8)) % 65536, xy.2)
  | .LineFeed => (xy.1, xy.2 - 1)
  | .CarriageReturn => (0, xy.2)
  | .CursorUp n => (xy.1, (xy.2 + n) % 65536)
  | .CursorDown n => (xy.1, xy.2 - n)
  | .CursorForward n => ((xy.1 + n) % 65536, xy.2)
  | .CursorBackward n => (xy.1 - n, xy.2)
  | .CursorNextLine n => (0, xy.2 - n)
  | .CursorPreviousLine n => (0, (xy.2 + n) % 65536)

/-- The cursor-offset update rules exactly as the spec words them
(spec section 4.3 step 3): Text x+=1; Tab advances x to the next multiple of
8; LineFeed y=max(y-1,0); CarriageReturn x=0; CursorUp(n) y+=n; CursorDown(n)
y=max(y-n,0); CursorForward(n) x+=n; CursorBackward(n) x=max(x-n,0);
CursorNextLine(n) y=max(y-n,0),x=0; CursorPreviousLine(n) y+=n,x=0.
(`Nat` subtraction is `max (x - n) 0`.) -/
def spec_cursor_action (xy : Nat × Nat) (a : VteAction) : Nat × Nat :=
  match a with
  | .Text _ => (xy.1 + 1, xy.2)
  | .Tab => ((xy.1 / 8 + 1) * 8, xy.2)
  | .LineFeed => (xy.1, xy.2 - 1)
  | .CarriageReturn => (0, xy.2)
  | .CursorUp n => (xy.1, xy.2 + n)
  | .CursorDown n => (xy.1, xy.2 - n)
  | .CursorForward n => (xy.1 + n, xy.2)
  | .CursorBackward n => (xy.1 - n, xy.2)
  | .CursorNextLine n => (0, xy.2 - n)
  | .CursorPreviousLine n => (0, xy.2 + n)

example : (parse_bytes .ground [97, 98, 99, 13, 10]).2 =
    [.Text 97, .Text 98, .Text 99, .CarriageReturn, .LineFeed] := by decide

example : (parse_bytes .ground [27, 91, 51, 68]).2 = [.CursorBackward 3] := by
  decide

example :
    ((parse_bytes .ground
      [97, 98, 99, 13, 10, 100, 101, 102, 13, 10, 103, 104, 105,
       27, 91, 51, 68, 27, 91, 49, 65, 27, 91, 51, 67]).2).foldl
      fold_cursor_action (0, 0) = (3, 1) := by decide

/-- Modelled from the spec: the `vt100::Parser` virtual-terminal grid used as
each secondary output's line buffer (an external dependency).  Per spec
section 4.2 it ingests bytes, tracks a cursor row/column and reports each
row's rendered content.  The model keeps the written rows as byte lists
(printable bytes write at the cursor, carriage return resets the column, line
feed advances the row) and is faithful for content that stays within the
grid height, which is all the spec's scenarios require. -/
structure Vt100Screen where
  lines : List (List Nat)
  cursor_row : Nat
  cursor_col : Nat
deriving DecidableEq, Repr

def Vt100Screen.new : Vt100Screen := ⟨[], 0, 0⟩

/-- Write a printable byte at the cursor and advance the column. -/
def vt100_put_char (scr : Vt100Screen) (b : Nat) : Vt100Screen :=
  let padded := scr.lines ++ List.replicate (scr.cursor_row + 1 - scr.lines.length) []
  let row := padded.getD scr.cursor_row []
  let rowPadded := row ++ List.replicate (scr.cursor_col + 1 - row.length) 32
  { scr with
    lines := padded.set scr.cursor_row (rowPadded.set scr.cursor_col b)
    cursor_col := scr.cursor_col + 1 }

/-- Modelled from the spec: one byte of terminal emulation in the line
buffer. -/
def vt100_step (scr : Vt100Screen) (b : Nat) : Vt100Screen :=
  if b = 13 then { scr with cursor_col := 0 }
  else if b = 10 then { scr with cursor_row := scr.cursor_row + 1 }
  else if 32 ≤ b ∧ b ≤ 126 then vt100_put_char scr b
  else scr

/-- Embeds `vt100::Parser::process`. -/
def Vt100Screen.process (scr : Vt100Screen) (bytes : List Nat) : Vt100Screen :=
  bytes.foldl vt100_step scr

/-- Embeds `screen().rows_formatted(0, u16::MAX)`: the grid's 50 visible rows, each
as its written content (untouched rows are empty). -/
def Vt100Screen.rows_formatted (scr : Vt100Screen) : List (List Nat) :=
  (List.range 50).map (fun i => scr.lines.getD i [])

/-- Embeds `SecondaryOutputState` from `src/state.rs`. -/
structure SecondaryOutputState where
  id : Nat
  title : String
  start : Nat
  expanded : Bool
  buffer : Vt100Screen
deriving DecidableEq, Repr

/-- Embeds `SecondaryOutputState::handle_bytes`. -/
def SecondaryOutputState.handle_bytes (o : SecondaryOutputState)
    (bytes : List Nat) : SecondaryOutputState :=
  { o with buffer := o.buffer.process bytes }

/-- Embeds `State` from `src/state.rs`.  Instants are `Nat` milliseconds; the output
sink is not a field — writes to it are the event list returned by
`render`. -/
structure State where
  primary_bytes : List Nat
  primary_output_parser_state : VteParserState
  primary_output_final_cursor_offset : Nat × Nat
  secondary_output_max_lines : Nat
  secondary_output_next_id : Nat
  secondary_output_reference_start_time : Nat
  secondary_outputs : List SecondaryOutputState
  secondary_output_selected_index : Nat
  previous_render_extra_lines : Nat
deriving DecidableEq, Repr

/-- Embeds `State::new` (the current instant becomes the reference start time). -/
def State.new (now : Nat) (secondary_output_max_lines : Nat) : State :=
  { primary_bytes := []
    primary_output_parser_state := .ground
    primary_output_final_cursor_offset := (0, 0)
    secondary_output_max_lines := secondary_output_max_lines
    secondary_output_next_id := 0
    secondary_output_reference_start_time := now
    secondary_outputs := []
    secondary_output_selected_index := 0
    previous_render_extra_lines := 0 }

/-- Embeds `State::handle_primary_bytes`. -/
def handle_primary_bytes (s : State) (bytes : List Nat) : State :=
  { s with primary_bytes := s.primary_bytes ++ bytes }

/-- The start-time alignment computed in `State::new_secondary_output`:
the reference instant plus the whole seconds elapsed since it (times are in
milliseconds, `Duration::as_secs` is division by 1000 rounding down). -/
def aligned_start (reference now : Nat) : Nat :=
  reference + 1000 * ((now - reference) / 1000)

/-- Embeds `State::new_secondary_output`: allocates the next id and appends a fresh,
collapsed output whose `start` is aligned to the reference instant. -/
def new_secondary_output (s : State) (now : Nat) (title : String) :
    Nat × State :=
  let start := aligned_start s.secondary_output_reference_start_time now
  let id := s.secondary_output_next_id
  (id,
   { s with
     secondary_output_next_id := id + 1
     secondary_outputs := s.secondary_outputs ++
       [{ id := id, title := title, start := start, expanded := false
          buffer := Vt100Screen.new }] })

/-- Embeds `Iterator::position`: index of the first element satisfying `p`. -/
def list_position {α : Type} (p : α → Bool) : List α → Option Nat
  | [] => none
  | a :: as => if p a then some 0 else (list_position p as).map (· + 1)

/-- Replace the element at an index, identity when out of range
(`Vec` indexing via a valid index / `get_mut`). -/
def list_modify {α : Type} (f : α → α) : Nat → List α → List α
  | _, [] => []
  | 0, a :: as => f a :: as
  | n + 1, a :: as => a :: list_modify f n as

/-- The `anyhow` error message produced for an unknown id. -/
def invalid_id_message (id : Nat) : String :=
  "Invalid ID: SecondaryOutputId(" ++ toString id ++ ")"

/-- Embeds `State::secondary_output_position`. -/
def secondary_output_position (s : State) (id : Nat) : Option Nat :=
  list_position (fun o => o.id == id) s.secondary_outputs

/-- Embeds `State::remove_secondary_output`.  Returns the (possibly untouched) state
together with an optional error, mirroring `&mut self` plus `Result`. -/
def remove_secondary_output (s : State) (id : Nat) : State × Option String :=
  match secondary_output_position s id with
  | none => (s, some (invalid_id_message id))
  | some idx =>
    ({ s with
       secondary_outputs :=
         s.secondary_outputs.take idx ++ s.secondary_outputs.drop (idx + 1)
       secondary_output_selected_index :=
         if idx < s.secondary_output_selected_index then
           s.secondary_output_selected_index - 1
         else s.secondary_output_selected_index },
     none)

/-- Embeds `State::handle_secondary_bytes`. -/
def handle_secondary_bytes (s : State) (id : Nat) (bytes : List Nat) :
    State × Option String :=
  match secondary_output_position s id with
  | none => (s, some (invalid_id_message id))
  | some idx =>
    ({ s with
       secondary_outputs :=
         list_modify (fun o => o.handle_bytes bytes) idx s.secondary_outputs },
     none)

/-- Embeds `State::move_cursor_down` under checked (debug-build) arithmetic: the
source computes `self.secondary_outputs.len() - 1` on `usize`, which on an
empty list underflows and aborts; `none` models that abort. -/
def move_cursor_down (s : State) : Option State :=
  if s.secondary_outputs.length = 0 then none
  else
    some { s with
      secondary_output_selected_index :=
        min (s.secondary_output_selected_index + 1)
          (s.secondary_outputs.length - 1) }

/-- Embeds `State::move_cursor_down` under wrapping (release-build) arithmetic:
`len() - 1` wraps modulo `2 ^ 64` on an empty list. -/
def move_cursor_down_release (s : State) : State :=
  { s with
    secondary_output_selected_index :=
      min ((s.secondary_output_selected_index + 1) % 2 ^ 64)
        ((s.secondary_outputs.length + (2 ^ 64 - 1)) % 2 ^ 64) }

/-- Embeds `State::move_cursor_up` (`saturating_sub`). -/
def move_cursor_up (s : State) : State :=
  { s with
    secondary_output_selected_index := s.secondary_output_selected_index - 1 }

/-- Embeds `State::toggle_current_selection_expanded` (`get_mut` out of range is a
no-op, which `list_modify` reproduces). -/
def toggle_current_selection_expanded (s : State) : State :=
  { s with
    secondary_outputs :=
      list_modify (fun o => { o with expanded := !o.expanded })
        s.secondary_output_selected_index s.secondary_outputs }

/-- Foreground colors used by the expand/collapse indicator. -/
inductive OutColor where
  | yellow
  | green
deriving DecidableEq, Repr

/-- One write to the output sink: either raw bytes (`write_all`) or a queued
`crossterm` command (`queue!`).  `flush` writes nothing. -/
inductive OutputEvent where
  | moveToColumn (n : Nat)
  | moveUp (n : Nat)
  | moveDown (n : Nat)
  | moveRight (n : Nat)
  | clearFromCursorDown
  | bytes (bs : List Nat)
  | print (s : String)
  | printStyled (s : String) (c : OutColor)
deriving DecidableEq, Repr

/-- Elapsed whole seconds shown for a secondary output:
`(now - start).as_secs()` with millisecond instants. -/
def num_seconds_since (now start : Nat) : Nat := (now - start) / 1000

/-- Embeds the format string `format!(" \x7bnum_seconds: >3\x7ds \x7b\x7d", title)`: the seconds count
right-aligned to width 3. -/
def format_seconds (n : Nat) : String :=
  let s := toString n
  String.mk (List.replicate (3 - s.length) ' ') ++ s

/-- The title line of one secondary output as queued by `State::render`:
selection marker, expand/collapse indicator, elapsed seconds, title, and the
line break from `newline()`. -/
def secondary_title_line (now : Nat) (selected : Bool)
    (o : SecondaryOutputState) : List OutputEvent :=
  [ .print (if selected then "> " else "  "),
    .printStyled (if o.expanded then "+++" else "---")
      (if o.expanded then .yellow else .green),
    .print (" " ++ format_seconds (num_seconds_since now o.start) ++ "s " ++ o.title),
    .print "\r\n" ]

/-- Embeds `Iterator::rposition`: index of the last element satisfying `p`. -/
def rposition {α : Type} (p : α → Bool) : List α → Option Nat
  | [] => none
  | a :: as =>
    match rposition p as with
    | some j => some (j + 1)
    | none => if p a then some 0 else none

/-- The window of rows `State::render` emits for an expanded output
(`src/state.rs` lines 145-167): the last shown row is
`max(cursor_row_adjusted, last_non_empty_row)` (cursor row minus one when the
cursor column is 0), and when that end index is positive the rows
`[end_idx - (max_lines - 1), end_idx]` are emitted. -/
def expanded_rows (max_lines : Nat) (o : SecondaryOutputState) :
    List (List Nat) :=
  let rows := o.buffer.rows_formatted
  let cursor_row :=
    o.buffer.cursor_row - (if o.buffer.cursor_col = 0 then 1 else 0)
  let last_non_empty_row := rposition (fun r => !r.isEmpty) rows
  let end_idx := max cursor_row (last_non_empty_row.getD 0)
  if 0 < end_idx then
    let start_idx := end_idx - (max_lines - 1)
    (rows.drop start_idx).take (end_idx + 1 - start_idx)
  else []

/-- Events and `newline()` count produced for one secondary output. -/
def render_secondary_output (max_lines : Nat) (now : Nat) (selected : Bool)
    (o : SecondaryOutputState) : List OutputEvent × Nat :=
  let header := secondary_title_line now selected o
  if o.expanded then
    let w := expanded_rows max_lines o
    (header ++ (w.map (fun r => [OutputEvent.bytes r, OutputEvent.print "\r\n"])).flatten,
     1 + w.length)
  else (header, 1)

/-- The panel section of `State::render`: every secondary output in order,
with the selection marker given to the output at `selected_index`. -/
def render_secondaries (max_lines now selected_index : Nat) :
    Nat → List SecondaryOutputState → List OutputEvent × Nat
  | _, [] => ([], 0)
  | i, o :: rest =>
    let r := render_secondary_output max_lines now (i == selected_index) o
    let rs := render_secondaries max_lines now selected_index (i + 1) rest
    (r.1 ++ rs.1, r.2 + rs.2)

/-- The `write_all(&self.primary_bytes)` step of `State::render`
(`write_all` on an empty buffer performs no write). -/
def render_primary_events (s : State) : List OutputEvent :=
  if s.primary_bytes.isEmpty then [] else [.bytes s.primary_bytes]

/-- Embeds `State::render`: undo the previous frame's panel, flush pending primary
bytes while folding the interpreter's actions onto the cursor offset, then
redraw the secondary panel.  Returns the sink writes and the new state. -/
def render (s : State) (now : Nat) : List OutputEvent × State :=
  let x := s.primary_output_final_cursor_offset.1
  let y := s.primary_output_final_cursor_offset.2
  let reset_events :=
    if 0 < s.previous_render_extra_lines then
      [OutputEvent.moveToColumn 0, .moveUp s.previous_render_extra_lines,
       .clearFromCursorDown, .moveUp (y + 1), .moveRight x]
    else []
  let parsed := parse_bytes s.primary_output_parser_state s.primary_bytes
  let xy := parsed.2.foldl fold_cursor_action (x, y)
  let secondary :=
    if s.secondary_outputs.isEmpty then ([], 0)
    else
      let r := render_secondaries s.secondary_output_max_lines now
        s.secondary_output_selected_index 0 s.secondary_outputs
      ([OutputEvent.moveToColumn 0, OutputEvent.moveDown (xy.2 + 1)] ++ r.1,
       r.2)
  (reset_events ++ render_primary_events s ++ secondary.1,
   { s with
     primary_bytes := []
     primary_output_parser_state := parsed.1
     primary_output_final_cursor_offset := xy
     previous_render_extra_lines := secondary.2 })


/-! ### Supporting lemmas about `list_position`, `list_modify` and windows -/

theorem list_position_isSome_iff {α : Type} (p : α → Bool) (l : List α) :
    (list_position p l).isSome ↔ ∃ a ∈ l, p a := by
  induction l with
  | nil => simp [list_position]
  | cons a as ih =>
    by_cases h : p a
    · simp [list_position, h]
    · simp [list_position, h, ih]

theorem list_position_some {α : Type} {p : α → Bool} {l : List α} {i : Nat}
    (h : list_position p l = some i) :
    i < l.length ∧ ∃ a, l.get? i = some a ∧ p a := by
  induction l generalizing i with
  | nil => simp [list_position] at h
  | cons a as ih =>
    by_cases hp : p a
    · simp [list_position, hp] at h
      subst h
      simp [hp]
    · simp [list_position, hp, Option.map_eq_some'] at h
      obtain ⟨j, hj, rfl⟩ := h
      have := ih hj
      simpa using this

theorem get?_take_drop {α : Type} (l : List α) (idx sel : Nat)
    (h1 : idx < sel) (h2 : idx < l.length) :
    (l.take idx ++ l.drop (idx + 1)).get? (sel - 1) = l.get? sel := by
  induction l generalizing idx sel with
  | nil => simp at h2
  | cons a as ih =>
    cases idx with
    | zero =>
      cases sel with
      | zero => omega
      | succ m => simp
    | succ k =>
      cases sel with
      | zero => omega
      | succ m =>
        cases m with
        | zero => omega
        | succ j =>
          simp only [List.take_succ_cons, List.drop_succ_cons, List.cons_append,
            Nat.succ_sub_one, List.get?_cons_succ]
          have := ih k (j + 1) (by omega) (by simpa using h2)
          simpa using this

theorem list_modify_length {α : Type} (f : α → α) (i : Nat) (l : List α) :
    (list_modify f i l).length = l.length := by
  induction l generalizing i with
  | nil => simp [list_modify]
  | cons a as ih => cases i <;> simp [list_modify, ih]

theorem list_modify_get?_eq {α : Type} (f : α → α) (i : Nat) (l : List α) :
    (list_modify f i l).get? i = (l.get? i).map f := by
  induction l generalizing i with
  | nil => simp [list_modify]
  | cons a as ih =>
    cases i with
    | zero => simp [list_modify]
    | succ n => simpa [list_modify] using ih n

theorem list_modify_get?_ne {α : Type} (f : α → α) (i j : Nat) (l : List α)
    (h : j ≠ i) : (list_modify f i l).get? j = l.get? j := by
  induction l generalizing i j with
  | nil => simp [list_modify]
  | cons a as ih =>
    cases i with
    | zero =>
      cases j with
      | zero => omega
      | succ m => simp [list_modify]
    | succ k =>
      cases j with
      | zero => simp [list_modify]
      | succ m =>
        simp only [list_modify, List.get?_cons_succ]
        exact ih k m (by omega)

/-! ### Concrete engines used by the claim theorems -/

/-- Two secondary outputs `A`, `B`, created at the reference instant. -/
def engineAB : State :=
  (new_secondary_output (new_secondary_output (State.new 0 3) 0 "A").2 0 "B").2

/-- Three secondary outputs `A`, `B`, `C` with the selection moved to index 1
(`B`). -/
def engineABC : State :=
  let r3 := new_secondary_output engineAB 0 "C"
  (move_cursor_down r3.2).getD r3.2

/-- The engine `engineABC` with the selection moved once more, to index 2 (`C`). -/
def engineABCsel2 : State :=
  (move_cursor_down engineABC).getD engineABC

/-- One secondary output `out`, created at the reference instant. -/
def engineOut : State := (new_secondary_output (State.new 0 3) 0 "out").2

/-! ### Claim theorems -/

/-- C1: the claimed invariant that `selected_index` stays in `[0, len-1]`
whenever `secondary_outputs` is non-empty fails on the code: with outputs
`A`, `B` and the selection on `B` (index 1), removing `B` succeeds but does
not re-clamp the selection, leaving `selected_index = 1` while the non-empty
list has length 1 (its only valid index is 0). -/
theorem c1_removal_leaves_selection_out_of_range :
    (remove_secondary_output ((move_cursor_down engineAB).getD engineAB)
      1).2 = none ∧
    (remove_secondary_output ((move_cursor_down engineAB).getD engineAB)
      1).1.secondary_outputs ≠ [] ∧
    ¬((remove_secondary_output ((move_cursor_down engineAB).getD engineAB)
        1).1.secondary_output_selected_index <
      (remove_secondary_output ((move_cursor_down engineAB).getD engineAB)
        1).1.secondary_outputs.length) := by
  decide

/-- C2: with an empty secondary-output list, `move_cursor_down` is not a
panic-free no-op: the source computes `secondary_outputs.len() - 1`, which
underflows `usize` — aborting under checked (debug) arithmetic (modelled by
`none`) and wrapping to `usize::MAX` under release arithmetic, where the call
then mutates `selected_index` from 0 to 1.  `move_cursor_up` by contrast is a
genuine no-op. -/
theorem c2_move_cursor_down_empty_list :
    move_cursor_down (State.new 0 3) = none ∧
    (move_cursor_down_release (State.new 0 3)).secondary_output_selected_index
      = 1 ∧
    move_cursor_down_release (State.new 0 3) ≠ State.new 0 3 ∧
    move_cursor_up (State.new 0 3) = State.new 0 3 := by
  decide

/-- C3: the per-action cursor update performed by `render` agrees with the
spec's fold rules on every action whenever no `u16` overflow occurs, and on
the primary bytes `"abc\r\ndef\r\nghi"` followed by `CursorBackward(3)`,
`CursorUp(1)`, `CursorForward(3)` a render starting from offset `(0,0)`
derives the final offset `(3, 1)`. -/
theorem c3_render_cursor_fold_matches_spec :
    (∀ x y a, x < 65536 → y < 65536 →
      (spec_cursor_action (x, y) a).1 < 65536 →
      (spec_cursor_action (x, y) a).2 < 65536 →
      fold_cursor_action (x, y) a = spec_cursor_action (x, y) a) ∧
    (render (handle_primary_bytes (State.new 0 3)
        [97, 98, 99, 13, 10, 100, 101, 102, 13, 10, 103, 104, 105,
         27, 91, 51, 68, 27, 91, 49, 65, 27, 91, 51, 67]) 0).2.primary_output_final_cursor_offset
      = (3, 1) := by
  constructor
  · intro x y a hx hy h1 h2
    cases a <;> simp [fold_cursor_action, spec_cursor_action, Prod.ext_iff] at * <;> omega
  · decide

/-- Witness for C3 at a concrete input: a `Tab` from column 5 advances to
column 8 under both the code's fold and the spec's rules. -/
theorem c3_render_cursor_fold_matches_spec_witness :
    fold_cursor_action (5, 0) .Tab = spec_cursor_action (5, 0) .Tab :=
  c3_render_cursor_fold_matches_spec.1 5 0 .Tab (by decide) (by decide)
    (by decide) (by decide)

/-- C6: both cursor-offset components saturate at zero on every decreasing
action (`Nat` subtraction is `max (x - n) 0`) and stay inside the `u16` range
across every single update, every action-list fold, and the fold of the
actions parsed from an arbitrary byte sequence. -/
theorem c6_cursor_offset_bounds :
    (∀ xy a, xy.1 < 65536 → xy.2 < 65536 →
      (fold_cursor_action xy a).1 < 65536 ∧
      (fold_cursor_action xy a).2 < 65536) ∧
    (∀ (acts : List VteAction) xy, xy.1 < 65536 → xy.2 < 65536 →
      (acts.foldl fold_cursor_action xy).1 < 65536 ∧
      (acts.foldl fold_cursor_action xy).2 < 65536) ∧
    (∀ (bytes : List Nat) (p : VteParserState) xy,
      xy.1 < 65536 → xy.2 < 65536 →
      ((parse_bytes p bytes).2.foldl fold_cursor_action xy).1 < 65536 ∧
      ((parse_bytes p bytes).2.foldl fold_cursor_action xy).2 < 65536) ∧
    (∀ x y n, x ≤ n → fold_cursor_action (x, y) (.CursorBackward n) = (0, y)) ∧
    (∀ x y n, y ≤ n → fold_cursor_action (x, y) (.CursorDown n) = (x, 0)) ∧
    (∀ x y n, y ≤ n → fold_cursor_action (x, y) (.CursorNextLine n) = (0, 0)) ∧
    (∀ x, fold_cursor_action (x, 0) .LineFeed = (x, 0)) := by
  have step : ∀ xy a, xy.1 < 65536 → xy.2 < 65536 →
      (fold_cursor_action xy a).1 < 65536 ∧
      (fold_cursor_action xy a).2 < 65536 := by
    intro xy a hx hy
    cases a <;> simp only [fold_cursor_action] <;> constructor <;> omega
  have foldAll : ∀ (acts : List VteAction) xy, xy.1 < 65536 → xy.2 < 65536 →
      (acts.foldl fold_cursor_action xy).1 < 65536 ∧
      (acts.foldl fold_cursor_action xy).2 < 65536 := by
    intro acts
    induction acts with
    | nil => intro xy hx hy; exact ⟨hx, hy⟩
    | cons a as ih =>
      intro xy hx hy
      have h := step xy a hx hy
      simpa using ih (fold_cursor_action xy a) h.1 h.2
  refine ⟨step, foldAll, ?_, ?_, ?_, ?_, ?_⟩
  · intro bytes p xy hx hy
    exact foldAll _ xy hx hy
  · intro x y n h
    simp [fold_cursor_action, Prod.ext_iff]
    omega
  · intro x y n h
    simp [fold_cursor_action, Prod.ext_iff]
    omega
  · intro x y n h
    simp [fold_cursor_action, Prod.ext_iff]
    omega
  · intro x
    simp [fold_cursor_action]

/-- Witness for C6 at a concrete input: a `CursorForward` step from the
largest in-range column keeps both components inside the `u16` range. -/
theorem c6_cursor_offset_bounds_witness :
    (fold_cursor_action (65535, 0) (.CursorForward 10)).1 < 65536 ∧
    (fold_cursor_action (65535, 0) (.CursorForward 10)).2 < 65536 :=
  c6_cursor_offset_bounds.1 (65535, 0) (.CursorForward 10) (by decide)
    (by decide)

/-- One secondary output `out` fed the lines `a`, `b`, `c`, `d` (each with a
trailing `\r\n`) and toggled expanded, with `max_lines = 3`. -/
def engineC7 : State :=
  let s := (handle_secondary_bytes engineOut 0
    [97, 13, 10, 98, 13, 10, 99, 13, 10, 100, 13, 10]).1
  toggle_current_selection_expanded s

/-- C7: rendering `engineC7` shows exactly the rows `b`, `c`, `d` in order in
the expanded block (the oldest line `a` is dropped): the cursor row 4 is
adjusted to 3 because the cursor column is 0, the last non-empty row is 3, so
the window `[3 - (3 - 1), 3] = [1, 3]` is emitted; four panel lines are
recorded for the next frame's erase. -/
theorem c7_expanded_window_shows_recent_lines :
    (render engineC7 0).1 =
      [OutputEvent.moveToColumn 0, .moveDown 1, .print "> ",
       .printStyled "+++" .yellow, .print "   0s out", .print "\r\n",
       .bytes [98], .print "\r\n", .bytes [99], .print "\r\n",
       .bytes [100], .print "\r\n"] ∧
    (render engineC7 0).2.previous_render_extra_lines = 4 ∧
    expanded_rows 3 (engineC7.secondary_outputs.getD 0
      { id := 0, title := "", start := 0, expanded := false,
        buffer := Vt100Screen.new }) = [[98], [99], [100]] := by
  refine ⟨by decide, by decide, by decide⟩

/-- C4: `remove_secondary_output` succeeds exactly when the id exists; on
failure the state is untouched; on success the element at the found index
carried the id and is dropped with the remaining outputs kept in order
(`take idx ++ drop (idx+1)`), `selected_index` is decremented exactly when
the removed index was strictly before it — so in that case the same element
stays selected — and the spec's `A,B,C` scenario behaves as described,
including the invalid-id failure of a second removal. -/
theorem c4_remove_secondary_output_semantics :
    (∀ s id, (remove_secondary_output s id).2 = none ↔
      ∃ o ∈ s.secondary_outputs, o.id = id) ∧
    (∀ s id, (remove_secondary_output s id).2 ≠ none →
      (remove_secondary_output s id).1 = s) ∧
    (∀ s id idx, secondary_output_position s id = some idx →
      (∃ o, s.secondary_outputs.get? idx = some o ∧ o.id = id) ∧
      (remove_secondary_output s id).1.secondary_outputs =
        s.secondary_outputs.take idx ++ s.secondary_outputs.drop (idx + 1) ∧
      (remove_secondary_output s id).1.secondary_output_selected_index =
        (if idx < s.secondary_output_selected_index then
          s.secondary_output_selected_index - 1
        else s.secondary_output_selected_index) ∧
      (idx < s.secondary_output_selected_index →
        (remove_secondary_output s id).1.secondary_outputs.get?
            (s.secondary_output_selected_index - 1) =
          s.secondary_outputs.get? s.secondary_output_selected_index)) ∧
    ((remove_secondary_output engineABC 1).2 = none ∧
     (remove_secondary_output engineABC 1).1.secondary_outputs.map
       (fun o => o.title) = ["A", "C"] ∧
     (remove_secondary_output engineABC 1).1.secondary_output_selected_index
       = 1 ∧
     (remove_secondary_output
        (remove_secondary_output engineABC 1).1 1).2 ≠ none ∧
     (remove_secondary_output (remove_secondary_output engineABC 1).1 1).1 =
       (remove_secondary_output engineABC 1).1) := by
  have hpos_iff : ∀ (s : State) (id : Nat),
      (secondary_output_position s id).isSome ↔
        ∃ o ∈ s.secondary_outputs, o.id = id := by
    intro s id
    unfold secondary_output_position
    rw [list_position_isSome_iff]
    simp
  refine ⟨?_, ?_, ?_, ?_⟩
  · intro s id
    rw [← hpos_iff]
    unfold remove_secondary_output
    cases hpos : secondary_output_position s id <;> simp [hpos]
  · intro s id h
    unfold remove_secondary_output at *
    cases hpos : secondary_output_position s id with
    | none => simp [hpos]
    | some idx => simp [hpos] at h
  · intro s id idx hpos
    have hpos' : list_position (fun o => o.id == id) s.secondary_outputs
        = some idx := hpos
    have hsome := list_position_some hpos'
    obtain ⟨hlt, o, hget, hid⟩ := hsome
    refine ⟨⟨o, hget, by simpa using hid⟩, ?_, ?_, ?_⟩
    · simp [remove_secondary_output, hpos]
    · simp [remove_secondary_output, hpos]
    · intro hsel
      simp only [remove_secondary_output, hpos]
      exact get?_take_drop s.secondary_outputs idx
        s.secondary_output_selected_index hsel hlt
  · refine ⟨by decide, by decide, by decide, by decide, by decide⟩

/-- Witness for C4 at a concrete input: in the `A,B,C` engine with the
selection on index 2 (`C`), removing `B` (id 1, index 1, strictly before the
selection) leaves the same element `C` selected at index 1. -/
theorem c4_remove_secondary_output_semantics_witness :
    (remove_secondary_output engineABCsel2 1).1.secondary_outputs.get? 1 =
      engineABCsel2.secondary_outputs.get? 2 := by
  have h := (c4_remove_secondary_output_semantics.2.2.1 engineABCsel2 1 1
    (by decide)).2.2.2 (by decide)
  simpa using h

/-- C5: after buffering bytes `b` into an engine with an empty pending
buffer, the first `render` performs exactly one primary write, `bytes b`,
and clears the pending buffer; a second `render` with nothing fed in between
performs no primary write at all, and when there are no secondary outputs it
writes nothing whatsoever to the sink. -/
theorem c5_idempotent_flush :
    ∀ (s : State) (b : List Nat) (now now' : Nat),
      s.primary_bytes = [] → b ≠ [] →
      (render_primary_events (handle_primary_bytes s b) =
        [OutputEvent.bytes b] ∧
       OutputEvent.bytes b ∈ (render (handle_primary_bytes s b) now).1) ∧
      ((render (handle_primary_bytes s b) now).2.primary_bytes = [] ∧
       render_primary_events (render (handle_primary_bytes s b) now).2 = []) ∧
      (s.secondary_outputs = [] →
        (render (render (handle_primary_bytes s b) now).2 now').1 = []) := by
  intro s b now now' hpb hb
  have hpb1 : (handle_primary_bytes s b).primary_bytes = b := by
    simp [handle_primary_bytes, hpb]
  have hrpe : render_primary_events (handle_primary_bytes s b) =
      [OutputEvent.bytes b] := by
    unfold render_primary_events
    rw [hpb1]
    cases b with
    | nil => exact absurd rfl hb
    | cons x xs => simp
  have hquiet : ∀ (t : State) (m : Nat), t.primary_bytes = [] →
      t.secondary_outputs = [] → t.previous_render_extra_lines = 0 →
      (render t m).1 = [] := by
    intro t m h1 h2 h3
    simp [render, render_primary_events, h1, h2, h3]
  have hcleared : (render (handle_primary_bytes s b) now).2.primary_bytes
      = [] := by
    simp [render]
  refine ⟨⟨hrpe, ?_⟩, ⟨hcleared, ?_⟩, ?_⟩
  · simp [render, hrpe]
  · simp [render_primary_events, hcleared]
  · intro hso
    refine hquiet _ now' hcleared ?_ ?_
    · simp [render, handle_primary_bytes, hso]
    · simp [render, handle_primary_bytes, hso]

/-- Witness for C5 at a concrete input: with no secondary outputs, rendering
twice after buffering the bytes `no` emits nothing on the second render. -/
theorem c5_idempotent_flush_witness :
    (render (render (handle_primary_bytes (State.new 0 3) [110, 111]) 0).2
      5).1 = [] :=
  (c5_idempotent_flush (State.new 0 3) [110, 111] 0 5 rfl
    (by decide)).2.2 rfl

/-- C8: the interpreter emits actions exactly for printable characters
(always, via `print`), the control bytes 9/10/13 (via `execute`), and
no-intermediate CSI sequences with finals `A`..`F` (via `csi_dispatch`);
the numeric parameter defaults to 1 when omitted or 0; intermediate-byte
sequences, other CSI finals, OSC and DCS content and other control bytes are
consumed without emitting anything and without any error outcome
(`parse_bytes` is total). -/
theorem c8_interpreter_action_characterization :
    (∀ b a, performer_execute b = some a ↔
      ((b = 9 ∧ a = .Tab) ∨ (b = 10 ∧ a = .LineFeed) ∨
       (b = 13 ∧ a = .CarriageReturn))) ∧
    (∀ ps inter c, (performer_csi_dispatch ps inter c).isSome ↔
      (inter = [] ∧
        (c = 65 ∨ c = 66 ∨ c = 67 ∨ c = 68 ∨ c = 69 ∨ c = 70))) ∧
    (∀ b, performer_print b = .Text b) ∧
    (∀ d, canonicalize_1 [] d = d) ∧
    (∀ g rest d, canonicalize_1 ((0 :: g) :: rest) d = d) ∧
    (∀ n g rest d, n ≠ 0 → canonicalize_1 ((n :: g) :: rest) d = n) ∧
    ((parse_bytes .ground [27, 93, 48, 59, 104, 105, 7]).2 = [] ∧
     (parse_bytes .ground [27, 91, 63, 50, 53, 104]).2 = [] ∧
     (parse_bytes .ground [27, 91, 50, 74]).2 = [] ∧
     (parse_bytes .ground [27, 80, 49, 113, 27, 92]).2 = [] ∧
     (parse_bytes .ground [7]).2 = [] ∧
     (parse_bytes .ground [27, 91, 32, 53, 109]).2 = []) ∧
    ((parse_bytes .ground [27, 91, 65]).2 = [.CursorUp 1] ∧
     (parse_bytes .ground [27, 91, 48, 66]).2 = [.CursorDown 1] ∧
     (parse_bytes .ground [27, 91, 53, 67]).2 = [.CursorForward 5] ∧
     (parse_bytes .ground [97]).2 = [.Text 97] ∧
     (parse_bytes .ground [9]).2 = [.Tab]) := by
  refine ⟨?_, ?_, ?_, ?_, ?_, ?_, ?_, ?_⟩
  · intro b a
    unfold performer_execute
    split_ifs with h1 h2 h3 <;> simp_all <;> tauto
  · intro ps inter c
    unfold performer_csi_dispatch
    split_ifs <;> simp_all
  · intro b
    rfl
  · intro d
    rfl
  · intro g rest d
    simp [canonicalize_1]
  · intro n g rest d h
    simp [canonicalize_1, h]
  · exact ⟨by decide, by decide, by decide, by decide, by decide, by decide⟩
  · exact ⟨by decide, by decide, by decide, by decide, by decide⟩

/-- Witness for C8 at a concrete input: a non-zero first parameter overrides
the default. -/
theorem c8_interpreter_action_characterization_witness :
    canonicalize_1 ((3 :: []) :: []) 1 = 3 :=
  c8_interpreter_action_characterization.2.2.2.2.2.1 3 [] [] 1 (by decide)

/-- Outputs `A` (created at reference+250ms) and `B` (created at
reference+750ms) on an engine whose reference instant is 0. -/
def engineC9 : State :=
  (new_secondary_output (new_secondary_output (State.new 0 3) 250 "A").2
    750 "B").2

/-- C9: `new_secondary_output` rounds the start down to a whole second past
the reference instant, so outputs created in the same reference-second get
identical starts and display identical elapsed seconds at every later
instant; concretely, `A` (reference+250ms) and `B` (reference+750ms) both
have start 0, both render `0s` at reference+999ms and both render `1s` at
reference+1000ms, in the same frame. -/
theorem c9_synchronized_tick_over :
    (∀ reference t1 t2, (t1 - reference) / 1000 = (t2 - reference) / 1000 →
      aligned_start reference t1 = aligned_start reference t2) ∧
    (∀ reference t1 t2 now,
      (t1 - reference) / 1000 = (t2 - reference) / 1000 →
      num_seconds_since now (aligned_start reference t1) =
        num_seconds_since now (aligned_start reference t2)) ∧
    (engineC9.secondary_outputs.map (fun o => o.start) = [0, 0] ∧
     (render engineC9 999).1 =
       [OutputEvent.moveToColumn 0, .moveDown 1, .print "> ",
        .printStyled "---" .green, .print "   0s A", .print "\r\n",
        .print "  ", .printStyled "---" .green, .print "   0s B",
        .print "\r\n"] ∧
     (render engineC9 1000).1 =
       [OutputEvent.moveToColumn 0, .moveDown 1, .print "> ",
        .printStyled "---" .green, .print "   1s A", .print "\r\n",
        .print "  ", .printStyled "---" .green, .print "   1s B",
        .print "\r\n"]) := by
  refine ⟨?_, ?_, by decide, by decide, by decide⟩
  · intro reference t1 t2 h
    unfold aligned_start
    rw [h]
  · intro reference t1 t2 now h
    unfold aligned_start
    rw [h]

/-- Witness for C9 at a concrete input: creation instants 250ms and 750ms
past reference 0 get the same aligned start. -/
theorem c9_synchronized_tick_over_witness :
    aligned_start 0 250 = aligned_start 0 750 :=
  c9_synchronized_tick_over.1 0 250 750 (by decide)

/-- C10: a successful `handle_secondary_bytes` call feeds the bytes to the
identified output's buffer (index `idx`) and changes nothing else: all other
engine fields are untouched, the list keeps its length, every other entry is
untouched, and the entry at `idx` is the old one with only its buffer
processed (`handle_bytes` rewrites nothing but `buffer`).  No sink write is
modelled because the source path performs none. -/
theorem c10_handle_secondary_bytes_frame_effect :
    ∀ (s : State) (id : Nat) (bs : List Nat) (s' : State),
      handle_secondary_bytes s id bs = (s', none) →
      ∃ idx, secondary_output_position s id = some idx ∧
        s'.primary_bytes = s.primary_bytes ∧
        s'.primary_output_parser_state = s.primary_output_parser_state ∧
        s'.primary_output_final_cursor_offset =
          s.primary_output_final_cursor_offset ∧
        s'.secondary_output_max_lines = s.secondary_output_max_lines ∧
        s'.secondary_output_next_id = s.secondary_output_next_id ∧
        s'.secondary_output_reference_start_time =
          s.secondary_output_reference_start_time ∧
        s'.secondary_output_selected_index =
          s.secondary_output_selected_index ∧
        s'.previous_render_extra_lines = s.previous_render_extra_lines ∧
        s'.secondary_outputs.length = s.secondary_outputs.length ∧
        (∀ j, j ≠ idx →
          s'.secondary_outputs.get? j = s.secondary_outputs.get? j) ∧
        s'.secondary_outputs.get? idx =
          (s.secondary_outputs.get? idx).map
            (fun o => o.handle_bytes bs) := by
  intro s id bs s' h
  unfold handle_secondary_bytes at h
  cases hpos : secondary_output_position s id with
  | none =>
    rw [hpos] at h
    simp at h
  | some idx =>
    rw [hpos] at h
    simp only [Prod.mk.injEq] at h
    obtain ⟨hs', -⟩ := h
    subst hs'
    refine ⟨idx, rfl, rfl, rfl, rfl, rfl, rfl, rfl, rfl, rfl, ?_, ?_, ?_⟩
    · exact list_modify_length _ idx _
    · intro j hj
      exact list_modify_get?_ne _ idx j _ hj
    · exact list_modify_get?_eq _ idx _

/-- Witness for C10 at a concrete input: feeding the byte `a` to the single
output of `engineOut`. -/
theorem c10_handle_secondary_bytes_frame_effect_witness :
    ∃ idx, secondary_output_position engineOut 0 = some idx ∧
      (handle_secondary_bytes engineOut 0 [97]).1.primary_bytes =
        engineOut.primary_bytes ∧
      (handle_secondary_bytes engineOut 0 [97]).1.primary_output_parser_state =
        engineOut.primary_output_parser_state ∧
      (handle_secondary_bytes engineOut 0
          [97]).1.primary_output_final_cursor_offset =
        engineOut.primary_output_final_cursor_offset ∧
      (handle_secondary_bytes engineOut 0 [97]).1.secondary_output_max_lines =
        engineOut.secondary_output_max_lines ∧
      (handle_secondary_bytes engineOut 0 [97]).1.secondary_output_next_id =
        engineOut.secondary_output_next_id ∧
      (handle_secondary_bytes engineOut 0
          [97]).1.secondary_output_reference_start_time =
        engineOut.secondary_output_reference_start_time ∧
      (handle_secondary_bytes engineOut 0
          [97]).1.secondary_output_selected_index =
        engineOut.secondary_output_selected_index ∧
      (handle_secondary_bytes engineOut 0
          [97]).1.previous_render_extra_lines =
        engineOut.previous_render_extra_lines ∧
      (handle_secondary_bytes engineOut 0 [97]).1.secondary_outputs.length =
        engineOut.secondary_outputs.length ∧
      (∀ j, j ≠ idx →
        (handle_secondary_bytes engineOut 0 [97]).1.secondary_outputs.get? j =
          engineOut.secondary_outputs.get? j) ∧
      (handle_secondary_bytes engineOut 0 [97]).1.secondary_outputs.get? idx =
        (engineOut.secondary_outputs.get? idx).map
          (fun o => o.handle_bytes [97]) :=
  c10_handle_secondary_bytes_frame_effect engineOut 0 [97]
    ((handle_secondary_bytes engineOut 0 [97]).1) (by decide)
